import Mathlib

/-!
Shallow embedding of the conflux-rust fragment: the snapshot restorer
(`core/src/sync/state/restore.rs`), the BFT state-replication contract
(`core/src/alliance_tree_graph/bft/consensus/state_replication.rs`), and the
JSON-RPC handlers (`client/src/rpc/impls.rs`, `impls/alliance.rs`,
`impls/light.rs`).

Machine words and hashes are modelled as `Nat`; byte strings as `List Nat`;
fallible Rust functions return `Except`; `&mut self` methods are modelled by
explicit state passing. External collaborator types (the chunk verifier, the
state manager, the light query service) are type or function parameters.
-/

namespace Conflux

abbrev U256 := Nat
abbrev H256 := Nat
abbrev EpochId := H256
abbrev MerkleHash := H256
abbrev Address := Nat
abbrev Key := List Nat
abbrev Value := List Nat
abbrev DbError := String
abbrev VerifierError := String
abbrev Bytes := List Nat

/-- From `sync/state/storage.rs` usage and the spec: the identity of a chunk is
the exclusive upper bound of its key range (`None` models an unbounded range). -/
structure ChunkKey where
  upper_bound_excl : Option Key
deriving DecidableEq, Repr

/-- From `sync/state/storage.rs` usage and the spec: an ordered batch of keys
and values covering the key range of the chunk. -/
structure Chunk where
  keys : List Key
  values : List Value
deriving DecidableEq, Repr

/-- Modelled from the spec: `SnapshotInfo` is metadata (epoch id, Merkle root,
key range bounds, parent snapshot id); the restorer treats it opaquely. -/
structure SnapshotInfo where
  epoch_id : EpochId
  merkle_root : MerkleHash
  lower_bound_incl : Key
  upper_bound_excl : Option Key
  parent_snapshot_id : EpochId
deriving DecidableEq, Repr

/-- `Restorer` from `restore.rs`: target epoch id, target Merkle root, and an
optional chunk verifier (initialized after a valid manifest). The verifier type
`V` is a parameter because `FullSyncVerifier` lives outside the shown slice. -/
structure Restorer (V : Type) where
  snapshot_epoch_id : EpochId
  snapshot_merkle_root : MerkleHash
  verifier : Option V
deriving DecidableEq, Repr

/-- The shape of `FullSyncVerifier::restore_chunk`, a `&mut self` method taking
the upper bound, the keys and the values and returning `Result<bool>`: the
model returns the result together with the mutated verifier. -/
abbrev RestoreChunkFn (V : Type) :=
  V → Option Key → List Key → List Value → Except VerifierError Bool × V

/-- `Restorer::append` from `restore.rs`: with no verifier return `false`;
otherwise forward to `verifier.restore_chunk(&key.upper_bound_excl,
&chunk.keys, chunk.values)` and return `true` exactly on `Ok(true)`. -/
def Restorer.append {V : Type} (rc : RestoreChunkFn V) (r : Restorer V)
    (key : ChunkKey) (chunk : Chunk) : Bool × Restorer V :=
  match r.verifier with
  | none => (false, r)
  | some verifier =>
    let call := rc verifier key.upper_bound_excl chunk.keys chunk.values
    (match call.1 with
     | Except.ok true => true
     | Except.ok false => false
     | Except.error _ => false,
     { r with verifier := some call.2 })

/-- `Restorer::restored_state_root` from `restore.rs`: ignores the state
manager argument and returns the stored target Merkle root. The state manager
type `SM` is a parameter (the `StateManager` lives outside the shown slice). -/
def Restorer.restored_state_root {V SM : Type} (r : Restorer V)
    (_state_manager : SM) : MerkleHash :=
  r.snapshot_merkle_root

/-- Observable calls made by `Restorer::finalize_restoration`. -/
inductive FinalizeEvent where
  | finalizeFullSyncSnapshot (epoch : EpochId) (root : MerkleHash)
  | registerNewSnapshot (info : SnapshotInfo) (snapshot_info_complete : Bool)
deriving DecidableEq, Repr

/-- `Restorer::finalize_restoration` from `restore.rs`: first call
`finalize_full_sync_snapshot(&snapshot_epoch_id, &snapshot_merkle_root)` on the
snapshot-db manager; `.expect(...)` aborts on error (modelled by
`Except.error` carrying the trace up to the abort); on success call
`register_new_snapshot(snapshot_info, true)` on the storage manager. -/
def Restorer.finalize_restoration {V : Type}
    (finalize_full_sync_snapshot : EpochId → MerkleHash → Except DbError Unit)
    (r : Restorer V) (snapshot_info : SnapshotInfo) :
    Except (List FinalizeEvent) (List FinalizeEvent) :=
  let ev := FinalizeEvent.finalizeFullSyncSnapshot r.snapshot_epoch_id
    r.snapshot_merkle_root
  match finalize_full_sync_snapshot r.snapshot_epoch_id
      r.snapshot_merkle_root with
  | Except.error _ => Except.error [ev]
  | Except.ok _ =>
      Except.ok [ev, FinalizeEvent.registerNewSnapshot snapshot_info true]

/-- `RestoreProgress` from `restore.rs`: two counters (the `AtomicUsize` relaxed
loads and stores are modelled as plain field reads of a snapshot value). -/
structure RestoreProgress where
  total : Nat
  completed : Nat
deriving DecidableEq, Repr

/-- The `#[derive(Default)]` on `RestoreProgress`: both counters zero. -/
def RestoreProgress.mkDefault : RestoreProgress :=
  { total := 0, completed := 0 }

/-- `RestoreProgress::is_completed` from `restore.rs`: `completed >= total`. -/
def RestoreProgress.is_completed (p : RestoreProgress) : Bool :=
  decide (p.completed ≥ p.total)

/-- The error kinds of `jsonrpc_core::Error` used on the RPC boundary:
`method_not_found()`, `invalid_params(msg)`, `internal_error()`. -/
inductive RpcError where
  | methodNotFound
  | invalidParams (msg : String)
  | internalError
deriving DecidableEq, Repr

/-- The body produced by the `not_supported!` macro in `rpc/impls.rs` for every
method declared inside it, at every argument list and return type:
`Err(RpcError::method_not_found())`. -/
def not_supported (α : Type) : Except RpcError α :=
  Except.error RpcError.methodNotFound

/-- The alliance `CfxHandler` from `rpc/impls/alliance.rs`: holds the common
impl and the alliance RpcImpl (their types are parameters; the unsupported
methods never touch them). -/
structure AllianceCfxHandler (C R : Type) where
  common : C
  rpc_impl : R

/-- `gas_price` on the alliance `CfxHandler`: declared in the `not_supported!`
block of `impl Cfx for CfxHandler`. -/
def AllianceCfxHandler.gas_price {C R : Type} (_h : AllianceCfxHandler C R) :
    Except RpcError U256 :=
  not_supported U256

/-- An `EpochNumber` RPC argument (`LatestState` is the default used by the
light-client methods when the argument is absent). -/
inductive EpochNumber where
  | latestState
  | latestMined
  | number (n : Nat)
deriving DecidableEq, Repr

/-- `epoch_number` on the alliance `CfxHandler`: declared in the
`not_supported!` block of `impl Cfx for CfxHandler`. -/
def AllianceCfxHandler.epoch_number {C R : Type} (_h : AllianceCfxHandler C R)
    (_epoch_num : Option EpochNumber) : Except RpcError U256 :=
  not_supported U256

/-- `send_raw_transaction` on the alliance `CfxHandler`: declared in the
`not_supported!` block of `impl Cfx for CfxHandler`. -/
def AllianceCfxHandler.send_raw_transaction {C R : Type}
    (_h : AllianceCfxHandler C R) (_raw : Bytes) : Except RpcError H256 :=
  not_supported H256

/-- Modelled from the spec: the `Account` primitive (crate `primitives`, not in
the shown slice) carries balance, nonce, bank balance and storage balance;
`new_empty_with_balance(address, balance, nonce)` builds an otherwise-empty
account at the address with the given balance and nonce, as the call-site
comments in `rpc/impls/light.rs` name the two zero arguments. -/
structure Account where
  address : Address
  balance : U256
  nonce : U256
  bank_balance : U256
  storage_balance : U256
deriving DecidableEq, Repr

def Account.new_empty_with_balance (address : Address) (balance nonce : U256) :
    Account :=
  { address := address, balance := balance, nonce := nonce,
    bank_balance := 0, storage_balance := 0 }

/-- Modelled from the spec: the RPC-facing account type
(`rpc/types/account.rs`, not in the shown slice); `RpcAccount::new` copies the
fields of the primitive account into their RPC representations. -/
structure RpcAccount where
  balance : U256
  nonce : U256
  bank_balance : U256
  storage_balance : U256
deriving DecidableEq, Repr

def RpcAccount.new (a : Account) : RpcAccount :=
  { balance := a.balance, nonce := a.nonce,
    bank_balance := a.bank_balance, storage_balance := a.storage_balance }

/-- The shape of `LightQueryService::get_account`: a fallible lookup returning
`None` when the account does not exist at that epoch. -/
abbrev GetAccountFn := EpochNumber → Address → Except String (Option Account)

/-- Light `RpcImpl::account` from `rpc/impls/light.rs`: look the account up at
`num.unwrap_or(LatestState)`; a missing account becomes
`Account::new_empty_with_balance(&address, &0, &0)`; a service error becomes
`invalid_params`. -/
def lightAccount (get_account : GetAccountFn) (address : Address)
    (num : Option EpochNumber) : Except RpcError RpcAccount :=
  let epoch := num.getD EpochNumber.latestState
  match get_account epoch address with
  | Except.error e => Except.error (RpcError.invalidParams e)
  | Except.ok maybe_acc =>
      Except.ok (RpcAccount.new (maybe_acc.getD
        (Account.new_empty_with_balance address 0 0)))

/-- Light `RpcImpl::balance` from `rpc/impls/light.rs`: the balance of the
account at `num.unwrap_or(LatestState)`, defaulting to zero when absent. -/
def lightBalance (get_account : GetAccountFn) (address : Address)
    (num : Option EpochNumber) : Except RpcError U256 :=
  let epoch := num.getD EpochNumber.latestState
  match get_account epoch address with
  | Except.error e => Except.error (RpcError.invalidParams e)
  | Except.ok maybe_acc => Except.ok ((maybe_acc.map (·.balance)).getD 0)

/-- Light `RpcImpl::bank_balance` from `rpc/impls/light.rs`. -/
def lightBankBalance (get_account : GetAccountFn) (address : Address)
    (num : Option EpochNumber) : Except RpcError U256 :=
  let epoch := num.getD EpochNumber.latestState
  match get_account epoch address with
  | Except.error e => Except.error (RpcError.invalidParams e)
  | Except.ok maybe_acc => Except.ok ((maybe_acc.map (·.bank_balance)).getD 0)

/-- Light `RpcImpl::storage_balance` from `rpc/impls/light.rs`. -/
def lightStorageBalance (get_account : GetAccountFn) (address : Address)
    (num : Option EpochNumber) : Except RpcError U256 :=
  let epoch := num.getD EpochNumber.latestState
  match get_account epoch address with
  | Except.error e => Except.error (RpcError.invalidParams e)
  | Except.ok maybe_acc =>
      Except.ok ((maybe_acc.map (·.storage_balance)).getD 0)

/-- Light `RpcImpl::send_raw_transaction` from `rpc/impls/light.rs`: RLP-decode
the bytes (decode failure is `invalid_params`), then relay via
`light.send_raw_tx(raw)`; `true` yields `Ok(tx.hash())`, `false` yields
`invalid_params("Unable to relay tx")`. The decoder, the hash function and the
relay service are parameters (they live outside the shown slice). -/
def lightSendRawTransaction {T : Type}
    (decode : Bytes → Except String T) (tx_hash : T → H256)
    (send_raw_tx : Bytes → Bool) (raw : Bytes) : Except RpcError H256 :=
  match decode raw with
  | Except.error e =>
      Except.error (RpcError.invalidParams ("Failed to decode tx: " ++ e))
  | Except.ok tx =>
      match send_raw_tx raw with
      | true => Except.ok (tx_hash tx)
      | false => Except.error (RpcError.invalidParams "Unable to relay tx")

/-- The storage state visible to `StateComputer::sync_to`: the committed
ledger info of storage. -/
structure StorageState (L : Type) where
  committed_ledger_info : L
deriving DecidableEq, Repr

inductive SyncError where
  | syncFailed
deriving DecidableEq, Repr

/-- Modelled from the spec: `StateComputer::sync_to` has only a trait
declaration under the shown slice (`state_replication.rs`); per its contract
it is best-effort catch-up — on success the committed ledger info of storage
equals the target, on failure storage is unchanged. The oracle `can_reach`
abstracts whether catch-up to the target completes. -/
def sync_to {L : Type} (can_reach : L → Bool) (st : StorageState L)
    (target : L) : Except SyncError Unit × StorageState L :=
  match can_reach target with
  | true => (Except.ok (), { committed_ledger_info := target })
  | false => (Except.error SyncError.syncFailed, st)

/-- C1: `Restorer::append(key, chunk)` returns true iff a verifier is present
and its `restore_chunk` call on `(key.upper_bound_excl, chunk.keys,
chunk.values)` returns `Ok(true)`; with no verifier, an `Ok(false)` result, or
an error, `append` returns false. -/
theorem restorer_append_true_iff {V : Type} (rc : RestoreChunkFn V)
    (r : Restorer V) (key : ChunkKey) (chunk : Chunk) :
    (Restorer.append rc r key chunk).1 = true ↔
      ∃ v, r.verifier = some v ∧
        (rc v key.upper_bound_excl chunk.keys chunk.values).1 =
          Except.ok true := by
  cases hv : r.verifier with
  | none => simp [Restorer.append, hv]
  | some v =>
    cases hres : (rc v key.upper_bound_excl chunk.keys chunk.values).1 with
    | error e => simp [Restorer.append, hv, hres]
    | ok b => cases b <;> simp [Restorer.append, hv, hres]

/-- C7: `Restorer::append` never changes the target fields
`snapshot_epoch_id` and `snapshot_merkle_root`, whether the chunk is accepted
or rejected; only the verifier component may be mutated. -/
theorem restorer_append_frame {V : Type} (rc : RestoreChunkFn V)
    (r : Restorer V) (key : ChunkKey) (chunk : Chunk) :
    (Restorer.append rc r key chunk).2.snapshot_epoch_id =
        r.snapshot_epoch_id ∧
      (Restorer.append rc r key chunk).2.snapshot_merkle_root =
        r.snapshot_merkle_root := by
  cases hv : r.verifier <;> simp [Restorer.append, hv]

/-- C2: `Restorer::restored_state_root` returns exactly the stored
`snapshot_merkle_root`, and its result is independent of the state-manager
argument (and even of the state-manager type). -/
theorem restored_state_root_is_target {V SM SM2 : Type} (r : Restorer V)
    (sm sm' : SM) (sm2 : SM2) :
    Restorer.restored_state_root r sm = r.snapshot_merkle_root ∧
      Restorer.restored_state_root r sm = Restorer.restored_state_root r sm' ∧
      Restorer.restored_state_root r sm = Restorer.restored_state_root r sm2 :=
  ⟨rfl, rfl, rfl⟩

/-- C3: `Restorer::finalize_restoration` calls `finalize_full_sync_snapshot`
with the stored epoch id and Merkle root first; on success it then calls
`register_new_snapshot`, and on error it aborts (the `.expect`) with
`register_new_snapshot` never reached. -/
theorem finalize_restoration_order {V : Type}
    (ffss : EpochId → MerkleHash → Except DbError Unit)
    (r : Restorer V) (si : SnapshotInfo) :
    (∀ tr, Restorer.finalize_restoration ffss r si = Except.ok tr →
      tr = [FinalizeEvent.finalizeFullSyncSnapshot r.snapshot_epoch_id
              r.snapshot_merkle_root,
            FinalizeEvent.registerNewSnapshot si true]) ∧
    (∀ tr, Restorer.finalize_restoration ffss r si = Except.error tr →
      tr = [FinalizeEvent.finalizeFullSyncSnapshot r.snapshot_epoch_id
              r.snapshot_merkle_root] ∧
      ∀ info b, FinalizeEvent.registerNewSnapshot info b ∉ tr) ∧
    (∀ e, ffss r.snapshot_epoch_id r.snapshot_merkle_root = Except.error e →
      ∃ tr, Restorer.finalize_restoration ffss r si = Except.error tr) := by
  cases hf : ffss r.snapshot_epoch_id r.snapshot_merkle_root <;>
    simp [Restorer.finalize_restoration, hf]

/-- Witness for C3 at a concrete failing snapshot-db manager. -/
theorem finalize_restoration_order_witness :
    [FinalizeEvent.finalizeFullSyncSnapshot 5 7] =
        [FinalizeEvent.finalizeFullSyncSnapshot 5 7] ∧
      ∀ info b, FinalizeEvent.registerNewSnapshot info b ∉
        [FinalizeEvent.finalizeFullSyncSnapshot 5 7] :=
  (finalize_restoration_order (V := Unit) (fun _ _ => Except.error "disk")
      { snapshot_epoch_id := 5, snapshot_merkle_root := 7, verifier := none }
      { epoch_id := 1, merkle_root := 2, lower_bound_incl := [],
        upper_bound_excl := none, parent_snapshot_id := 0 }).2.1
    [FinalizeEvent.finalizeFullSyncSnapshot 5 7] rfl

/-- C8: `RestoreProgress::is_completed` is true iff the loaded `completed`
counter is at least the loaded `total` counter. -/
theorem restore_progress_is_completed_iff (p : RestoreProgress) :
    p.is_completed = true ↔ p.completed ≥ p.total := by
  simp [RestoreProgress.is_completed]

/-- C9: a default-constructed `RestoreProgress` has both counters zero and
already reports completion. -/
theorem restore_progress_default_completed :
    RestoreProgress.mkDefault.total = 0 ∧
      RestoreProgress.mkDefault.completed = 0 ∧
      RestoreProgress.mkDefault.is_completed = true := by
  decide

/-- C4: `StateComputer::sync_to` is all-or-nothing — on success the committed
ledger info equals the target, on failure the storage state is exactly its
pre-call value. -/
theorem sync_to_all_or_nothing {L : Type} (can_reach : L → Bool)
    (st : StorageState L) (target : L) :
    ((sync_to can_reach st target).1 = Except.ok () →
      (sync_to can_reach st target).2.committed_ledger_info = target) ∧
    (∀ e, (sync_to can_reach st target).1 = Except.error e →
      (sync_to can_reach st target).2 = st) := by
  cases hc : can_reach target <;> simp [sync_to, hc]

/-- Witness for C4 at a concrete reachable target and a concrete failure. -/
theorem sync_to_all_or_nothing_witness :
    ((sync_to (L := Nat) (fun _ => true)
        { committed_ledger_info := 0 } 9).2.committed_ledger_info = 9) ∧
      ((sync_to (L := Nat) (fun _ => false)
          { committed_ledger_info := 0 } 9).2 =
        { committed_ledger_info := 0 }) :=
  ⟨(sync_to_all_or_nothing (L := Nat) (fun _ => true)
      { committed_ledger_info := 0 } 9).1 rfl,
   (sync_to_all_or_nothing (L := Nat) (fun _ => false)
      { committed_ledger_info := 0 } 9).2 SyncError.syncFailed rfl⟩

/-- C5: the `not_supported!` macro body yields `Err(method_not_found())` at
every return type, so every method declared inside such a block — among them
`gas_price`, `epoch_number` and `send_raw_transaction` on the alliance
`CfxHandler` — returns `MethodNotFound` for every input and never
`InvalidParams`, `InternalError` or a success value. -/
theorem unsupported_rpc_methods_method_not_found :
    (∀ (α : Type), not_supported α = Except.error RpcError.methodNotFound) ∧
    (∀ (C R : Type) (h : AllianceCfxHandler C R),
      h.gas_price = Except.error RpcError.methodNotFound ∧
      (∀ num, h.epoch_number num = Except.error RpcError.methodNotFound) ∧
      (∀ raw, h.send_raw_transaction raw =
        Except.error RpcError.methodNotFound) ∧
      (∀ msg, h.gas_price ≠ Except.error (RpcError.invalidParams msg)) ∧
      h.gas_price ≠ Except.error RpcError.internalError ∧
      ∀ v, h.gas_price ≠ Except.ok v) := by
  refine ⟨fun α => rfl, fun C R h => ?_⟩
  refine ⟨rfl, fun num => rfl, fun raw => rfl, fun msg => ?_, ?_, fun v => ?_⟩
    <;> simp [AllianceCfxHandler.gas_price, not_supported]

/-- C6: the light `send_raw_transaction` succeeds with the decoded
transaction hash iff RLP decoding succeeds and `send_raw_tx` returns true;
every failure — decode failure or relay refusal — is an `InvalidParams`
error, so the two failure modes differ only in message text. -/
theorem light_send_raw_transaction_spec {T : Type}
    (decode : Bytes → Except String T) (tx_hash : T → H256)
    (send_raw_tx : Bytes → Bool) (raw : Bytes) :
    (∀ h, lightSendRawTransaction decode tx_hash send_raw_tx raw =
        Except.ok h ↔
      ∃ tx, decode raw = Except.ok tx ∧ send_raw_tx raw = true ∧
        h = tx_hash tx) ∧
    (∀ e, lightSendRawTransaction decode tx_hash send_raw_tx raw =
        Except.error e →
      ∃ msg, e = RpcError.invalidParams msg) := by
  cases hd : decode raw with
  | error e => simp [lightSendRawTransaction, hd]
  | ok tx =>
      cases hs : send_raw_tx raw with
      | false => simp [lightSendRawTransaction, hd, hs]
      | true =>
          simp only [lightSendRawTransaction, hd, hs]
          constructor
          · intro h
            simp_all
            tauto
          · intro e he
            simp_all

/-- Witness for C6 at a concrete decoder, hash and relay service. -/
theorem light_send_raw_transaction_spec_witness :
    lightSendRawTransaction (T := Nat) (fun _ => Except.ok 42)
      (fun tx => tx + 1) (fun _ => true) [1] = Except.ok 43 :=
  ((light_send_raw_transaction_spec (T := Nat) (fun _ => Except.ok 42)
      (fun tx => tx + 1) (fun _ => true) [1]).1 43).mpr ⟨42, rfl, rfl, rfl⟩

/-- C10: on the light RPC path a missing account is never an error: when the
light service succeeds with no account, `balance`, `bank_balance` and
`storage_balance` return `Ok(0)` and `account` returns the RPC view of an
empty account with zero balance and zero nonce. -/
theorem light_missing_account_defaults (get_account : GetAccountFn)
    (address : Address) (num : Option EpochNumber)
    (h : get_account (num.getD EpochNumber.latestState) address =
      Except.ok none) :
    lightBalance get_account address num = Except.ok 0 ∧
    lightBankBalance get_account address num = Except.ok 0 ∧
    lightStorageBalance get_account address num = Except.ok 0 ∧
    lightAccount get_account address num =
      Except.ok (RpcAccount.new (Account.new_empty_with_balance address 0 0)) ∧
    (RpcAccount.new (Account.new_empty_with_balance address 0 0)).balance = 0 ∧
    (RpcAccount.new (Account.new_empty_with_balance address 0 0)).nonce = 0 := by
  refine ⟨?_, ?_, ?_, ?_, rfl, rfl⟩ <;>
    simp [lightBalance, lightBankBalance, lightStorageBalance, lightAccount, h]

/-- Witness for C10 at a concrete light service that finds no account. -/
theorem light_missing_account_defaults_witness :
    lightBalance (fun _ _ => Except.ok none) 3 none = Except.ok 0 ∧
      lightAccount (fun _ _ => Except.ok none) 3 none =
        Except.ok (RpcAccount.new (Account.new_empty_with_balance 3 0 0)) :=
  ⟨(light_missing_account_defaults (fun _ _ => Except.ok none) 3 none rfl).1,
   (light_missing_account_defaults
      (fun _ _ => Except.ok none) 3 none rfl).2.2.2.1⟩

end Conflux
